import Mathlib

/-!
Verification development for the AWS web-scraper Lambda
(src/backend/lambda_function.py).

The embedding models the parsed HTML document as a tree of nodes (the
output of the external BeautifulSoup parser), JSON values as the output
of the external json library, and gathers all external collaborators
(HTTP client, URL resolution, md5, mimetypes table, S3 client) in an
`Env` record of oracle functions.  Every function of the Python module
is translated into a pure Lean function over these types.
-/

namespace WebScraper

/-- JSON values, as produced by the external json parser. -/
inductive Json where
  | jnull : Json
  | jbool : Bool → Json
  | jnum : Int → Json
  | jstr : String → Json
  | jarr : List Json → Json
  | jobj : List (String × Json) → Json

/-- dict.get(k) on a parsed JSON object; none when the value is not an
object or the key is absent. -/
def jGet (j : Json) (k : String) : Option Json :=
  match j with
  | .jobj kvs => kvs.lookup k
  | _ => none

/-- dict.get(k, d): the value at k, or the default d. -/
def jGetD (j : Json) (k : String) (d : Json) : Json :=
  (jGet j k).getD d

/-- dict.get(k, d) where the call site expects a string value; a value of
a non-string type is abstracted to the default. -/
def jStrD (j : Json) (k : String) (d : String) : String :=
  match jGet j k with
  | some (.jstr s) => s
  | _ => d

/-- list(x) at call sites that expect a JSON array; non-arrays are
abstracted to the empty list. -/
def jList (j : Json) : List Json :=
  match j with
  | .jarr l => l
  | _ => []

mutual

/-- A node of the DOM tree built by the external HTML parser: either a
text node or an element with a tag name, attributes and children. -/
inductive Node where
  | text : String → Node
  | elem : String → List (String × String) → NodeList → Node

/-- A list of sibling nodes of the DOM tree. -/
inductive NodeList where
  | nil : NodeList
  | cons : Node → NodeList → NodeList

end

/-- Builds a NodeList from an ordinary list (for concrete documents). -/
def nlist : List Node → NodeList
  | [] => .nil
  | n :: ns => .cons n (nlist ns)

/-- The parsed document: the BeautifulSoup object with its top-level
children.  The document object itself is never a removable tag. -/
structure Soup where
  children : NodeList

/-- tag.get(attr) on an element. -/
def nodeAttr (n : Node) (k : String) : Option String :=
  match n with
  | .text _ => none
  | .elem _ attrs _ => attrs.lookup k

/-- Tags removed by the decompose loop of scrape_url (lines 116-118). -/
def noiseTags : List String :=
  ["script", "style", "nav", "footer", "header", "aside",
   "noscript", "iframe", "svg", "form"]

/-- Tags collected as keyword-match candidates (line 133). -/
def matchTags : List String :=
  ["p", "h1", "h2", "h3", "h4", "li", "td", "dt", "dd", "blockquote"]

/-- MAX_IMAGES (line 29). -/
def MAX_IMAGES : Nat := 10

/-- str.lower(). -/
def pyLower (s : String) : String := ⟨s.data.map Char.toLower⟩

/-- str.strip(): drop leading and trailing whitespace. -/
def pyStrip (s : String) : String :=
  ⟨((s.data.dropWhile Char.isWhitespace).reverse.dropWhile Char.isWhitespace).reverse⟩

/-- str.startswith(pre). -/
def pyStartsWith (s pre : String) : Bool := pre.data.isPrefixOf s.data

/-- len(s) in characters. -/
def pyLen (s : String) : Nat := s.data.length

/-- s.split(";")[0]: the prefix of s before the first semicolon. -/
def splitSemiHead (s : String) : String := ⟨s.data.takeWhile (fun c => c ≠ ';')⟩

/-- Net effect of `for tag in soup([...]): tag.decompose()`: every
subtree rooted at a listed tag is removed from the forest. -/
def removeChildren (noise : List String) : NodeList → NodeList
  | .nil => .nil
  | .cons (.text s) cs => .cons (.text s) (removeChildren noise cs)
  | .cons (.elem t a kids) cs =>
    if t ∈ noise then removeChildren noise cs
    else .cons (.elem t a (removeChildren noise kids)) (removeChildren noise cs)

/-- Whether the forest still contains an element with a listed tag. -/
def hasNoise (noise : List String) : NodeList → Bool
  | .nil => false
  | .cons (.text _) cs => hasNoise noise cs
  | .cons (.elem t _ kids) cs =>
    noise.contains t || hasNoise noise kids || hasNoise noise cs

/-- The soup after the decompose loop. -/
def cleanedSoup (s : Soup) : Soup :=
  ⟨removeChildren noiseTags s.children⟩

/-- soup.find_all(tags): all elements with a listed tag, in document
(preorder) order. -/
def findAllList (tags : List String) : NodeList → List Node
  | .nil => []
  | .cons (.text _) cs => findAllList tags cs
  | .cons (.elem t a kids) cs =>
    (if t ∈ tags then [Node.elem t a kids] else [])
      ++ findAllList tags kids ++ findAllList tags cs

/-- All descendant text-node strings of a forest, in document order. -/
def textList : NodeList → List String
  | .nil => []
  | .cons (.text s) cs => s :: textList cs
  | .cons (.elem _ _ kids) cs => textList kids ++ textList cs

/-- tag.get_text(separator=sep, strip=True): each descendant string is
stripped, whitespace-only strings are dropped, the rest are joined with
the separator. -/
def getTextSep (sep : String) (n : Node) : String :=
  String.intercalate sep (((textList (.cons n .nil)).map pyStrip).filter (fun s => s ≠ ""))

/-- The match-collection loop of scrape_url (lines 133-138): walks the
candidate elements keeping texts that contain the case-folded keyword,
have length strictly between 15 and 1500, and were not seen before. -/
def matchesAux (kwLower : String) : List Node → List String → List String
  | [], _ => []
  | t :: ts, seen =>
    let text := getTextSep " " t
    if kwLower.data <:+: (pyLower text).data
        ∧ 15 < pyLen text ∧ pyLen text < 1500 ∧ text ∉ seen
    then text :: matchesAux kwLower ts (text :: seen)
    else matchesAux kwLower ts seen

/-- The full (untruncated) match list computed from an already cleaned
soup. -/
def matchesFromClean (soupC : Soup) (keyword : String) : List String :=
  matchesAux (pyLower keyword) (findAllList matchTags soupC.children) []

/-- Exceptions of python requests caught by the handler (lines 86-95);
otherExc stands for any exception that is not a requests exception. -/
inductive ReqErr where
  | timeout : ReqErr
  | httpError : Nat → ReqErr
  | tooManyRedirects : ReqErr
  | requestExc : String → ReqErr
  | otherExc : String → ReqErr

/-- The response of a page fetch (requests.get in scrape_url). -/
structure FetchResp where
  status : Nat
  apparentEncoding : Option String
  raw : String

/-- The response of an image fetch inside _upload_image_to_s3. -/
structure ImgResp where
  status : Nat
  contentTypeHeader : Option String
  content : String

/-- The response of the Brave web-search request. -/
structure WebResp where
  status : Nat
  data : Json

/-- The response of the Brave image-search request. -/
structure ImgSearchResp where
  status : Nat
  results : List Json

/-- The environment of external collaborators: configuration read from
the process environment and the oracle functions standing for the HTTP
client, the URL resolver, md5, the mimetypes table, the JSON parser,
the HTML parser, the text decoder and the S3 client.  A network call
that raises is modelled by its error value. -/
structure Env where
  IMAGE_BUCKET : String
  AWS_REGION : String
  urljoin : String → String → String
  md5hex : String → String
  guessExtension : String → Option String
  imgGet : String → Option ImgResp
  s3PutOk : String → Bool
  pageGet : String → Except ReqErr FetchResp
  parseHtml : String → Soup
  decodeText : String → String → String
  jsonLoads : String → Option Json
  webGet : String → Except ReqErr WebResp
  imgSearchGet : String → Except ReqErr ImgSearchResp

/-- One entry of the images list ({original_url, s3_url, alt}). -/
structure ImageEntry where
  original_url : String
  s3_url : String
  alt : String

/-- The public URL of an uploaded object (lines 216-218). -/
def s3UrlFor (env : Env) (s3_key : String) : String :=
  "https://" ++ env.IMAGE_BUCKET ++ ".s3." ++ env.AWS_REGION
    ++ ".amazonaws.com/" ++ s3_key

/-- Model of _upload_image_to_s3 (lines 188-221): fetch the image, derive the
extension from the content type, store under the md5 of the source URL;
any failure is swallowed and reported as none. -/
def _upload_image_to_s3 (env : Env) (img_url : String) : Option String :=
  match env.imgGet img_url with
  | none => none
  | some resp =>
    if 400 ≤ resp.status ∧ resp.status < 600 then none
    else
      let content_type :=
        pyStrip (splitSemiHead (resp.contentTypeHeader.getD "image/jpeg"))
      if pyStartsWith content_type "image/" = false then none
      else
        let ext0 := (env.guessExtension content_type).getD ".jpg"
        let ext := if ext0 = ".jpe" then ".jpg" else ext0
        let s3_key := "images/" ++ env.md5hex img_url ++ ext
        if env.s3PutOk s3_key then some (s3UrlFor env s3_key)
        else none

/-- find_all("img", src=True): all img elements that carry a src
attribute, in document order. -/
def imgTagsWithSrc (s : Soup) : List Node :=
  (findAllList ["img"] s.children).filter (fun n => (nodeAttr n "src").isSome)

/-- The loop of _collect_images (lines 164-183).  First component: the
final results list; second component: the URLs for which an upload was
attempted (the exact arguments passed to _upload_image_to_s3). -/
def collectImagesGo (env : Env) (base_url : String) :
    List Node → List ImageEntry → List ImageEntry × List String
  | [], results => (results, [])
  | img :: rest, results =>
    if results.length ≥ MAX_IMAGES then (results, [])
    else
      let src := pyStrip ((nodeAttr img "src").getD "")
      if src = "" ∨ pyStartsWith src "data:" = true then
        collectImagesGo env base_url rest results
      else
        let full_url := env.urljoin base_url src
        if ¬(pyStartsWith full_url "http://" = true ∨ pyStartsWith full_url "https://" = true) then
          collectImagesGo env base_url rest results
        else
          match _upload_image_to_s3 env full_url with
          | some s3_url =>
            let step := collectImagesGo env base_url rest
              (results ++ [⟨full_url, s3_url, (nodeAttr img "alt").getD ""⟩])
            (step.1, full_url :: step.2)
          | none =>
            let step := collectImagesGo env base_url rest results
            (step.1, full_url :: step.2)

/-- Model of _collect_images together with its trace of attempted uploads. -/
def collectImagesRun (env : Env) (soup : Soup) (base_url : String) :
    List ImageEntry × List String :=
  if env.IMAGE_BUCKET = "" then ([], [])
  else collectImagesGo env base_url (imgTagsWithSrc soup) []

/-- Model of _collect_images (lines 156-185). -/
def _collect_images (env : Env) (soup : Soup) (base_url : String) : List ImageEntry :=
  (collectImagesRun env soup base_url).1

/-- The URLs passed to _upload_image_to_s3 during _collect_images. -/
def collectAttempts (env : Env) (soup : Soup) (base_url : String) : List String :=
  (collectImagesRun env soup base_url).2

/-- The scrape-mode result dict (lines 143-153), minus the constant mode
tag which is added by the serializer. -/
structure ScrapeResult where
  keyword : String
  url : String
  title : String
  description : String
  «matches» : List String
  match_count : Nat
  images : List ImageEntry
  image_count : Nat

/-- Title extraction (lines 121-122): text of the first title element,
stripped; the original URL when there is none. -/
def titleFromClean (soupC : Soup) (url : String) : String :=
  match (findAllList ["title"] soupC.children).head? with
  | some t => getTextSep "" t
  | none => url

/-- Meta-description extraction (lines 125-126): the first meta element
whose name attribute equals description case-insensitively; its content
attribute, stripped, or the empty string. -/
def descriptionFromClean (soupC : Soup) : String :=
  match (findAllList ["meta"] soupC.children).find?
      (fun n => match nodeAttr n "name" with
        | some v => pyLower v = "description"
        | none => false) with
  | some m => pyStrip ((nodeAttr m "content").getD "")
  | none => ""

/-- The body of scrape_url after parsing, applied to the soup that the
decompose loop already cleaned (lines 120-153). -/
def extractCore (env : Env) (soupC : Soup) (url keyword : String) : ScrapeResult :=
  let ms := matchesFromClean soupC keyword
  let images := _collect_images env soupC url
  { keyword := keyword
    url := url
    title := titleFromClean soupC url
    description := descriptionFromClean soupC
    «matches» := ms.take 20
    match_count := ms.length
    images := images
    image_count := images.length }

/-- The extraction part of scrape_url: decompose the noise tags, then
extract title, description, matches and images (lines 113-153). -/
def scrapeExtract (env : Env) (soup : Soup) (url keyword : String) : ScrapeResult :=
  extractCore env (cleanedSoup soup) url keyword

/-- The encoding assigned on line 111: resp.apparent_encoding or a
utf-8 fallback when detection yields nothing usable. -/
def usedEncoding (resp : FetchResp) : String :=
  match resp.apparentEncoding with
  | none => "utf-8"
  | some e => if e = "" then "utf-8" else e

/-- scrape_url (lines 105-153): fetch the page, raise for a 4xx/5xx
status, decode with the detected encoding, parse and extract. -/
def scrape_url (env : Env) (url keyword : String) : Except ReqErr ScrapeResult := do
  let resp ← env.pageGet url
  if 400 ≤ resp.status ∧ resp.status < 600 then throw (.httpError resp.status)
  else
    let textBody := env.decodeText (usedEncoding resp) resp.raw
    let soup := env.parseHtml textBody
    pure (scrapeExtract env soup url keyword)

/-- One web search hit (lines 245-250); the provider values are kept as
the JSON values that dict.get returned. -/
structure WebHit where
  title : Json
  url : Json
  snippet : Json
  display_url : Json

/-- The search-mode result dict (lines 274-281), minus the constant
mode tag. -/
structure SearchResult where
  keyword : String
  results : List WebHit
  result_count : Nat
  images : List ImageEntry
  image_count : Nat

/-- Mapping of one provider item to a hit (lines 245-250). -/
def mkHit (item : Json) : WebHit :=
  { title := jGetD item "title" (.jstr "")
    url := jGetD item "url" (.jstr "")
    snippet := jGetD item "description" (.jstr "")
    display_url := jGetD (jGetD item "meta_url" (.jobj [])) "hostname" (.jstr "") }

/-- web_data.get("web", \x7b\x7d).get("results", []) mapped to hits. -/
def webHits (web_resp : WebResp) : List WebHit :=
  (jList (jGetD (jGetD web_resp.data "web" (.jobj [])) "results" (.jarr []))).map mkHit

/-- The image loop of search_brave (lines 262-272), over the already
truncated item list. -/
def searchImagesGo (env : Env) : List Json → List ImageEntry
  | [] => []
  | item :: rest =>
    let src := jStrD (jGetD item "properties" (.jobj [])) "url" ""
    if src = "" then searchImagesGo env rest
    else
      match _upload_image_to_s3 env src with
      | some s3_url => ⟨src, s3_url, jStrD item "title" ""⟩ :: searchImagesGo env rest
      | none => searchImagesGo env rest

/-- search_brave (lines 225-281): web search, then image search and
upload only when a bucket is configured; a non-2xx image response is
treated as no images. -/
def search_brave (env : Env) (keyword : String) : Except ReqErr SearchResult := do
  let web_resp ← env.webGet keyword
  if 400 ≤ web_resp.status ∧ web_resp.status < 600 then
    throw (.httpError web_resp.status)
  else
    let results := webHits web_resp
    let images ←
      if env.IMAGE_BUCKET = "" then pure []
      else do
        let img_resp ← env.imgSearchGet keyword
        if img_resp.status < 400 then
          pure (searchImagesGo env (img_resp.results.take MAX_IMAGES))
        else pure []
    pure { keyword := keyword
           results := results
           result_count := results.length
           images := images
           image_count := images.length }

/-- Python exceptions that can escape lambda_handler: the AttributeError
raised by calling .get on a non-dict body or .strip() on a non-string
field value (lines 73-74, outside the try block). -/
inductive PyExn where
  | attributeError : PyExn

/-- body.get(key, "").strip() — ok for an object body whose field is a
string or absent; AttributeError otherwise. -/
def pyGetStrip (body : Json) (k : String) : Except PyExn String :=
  match body with
  | .jobj kvs =>
    match kvs.lookup k with
    | none => .ok ""
    | some (.jstr s) => .ok (pyStrip s)
    | some _ => .error .attributeError
  | _ => .error .attributeError

/-- The incoming event, reduced to the fields the handler reads: the
HTTP method (from either API shape) and the raw body string. -/
structure Event where
  method : String
  body : Option String

/-- event.get("body") or "\x7b\x7d" (line 69). -/
def bodyStr (ev : Event) : String :=
  match ev.body with
  | none => "\x7b\x7d"
  | some s => if s = "" then "\x7b\x7d" else s

/-- The serialized body of a response: empty (the OPTIONS reply) or the
dump of a JSON value. -/
inductive Body where
  | empty : Body
  | jsonDump : Json → Body

/-- A handler response (status code and body; the constant CORS headers
are omitted). -/
structure HttpResponse where
  statusCode : Nat
  body : Body

/-- Model of _error (lines 285-290). -/
def _error (status_code : Nat) (message : String) : HttpResponse :=
  ⟨status_code, .jsonDump (.jobj [("error", .jstr message)])⟩

/-- Serialization of one image entry. -/
def imageJson (e : ImageEntry) : Json :=
  .jobj [("original_url", .jstr e.original_url), ("s3_url", .jstr e.s3_url),
         ("alt", .jstr e.alt)]

/-- Serialization of the scrape-mode result dict (lines 143-153). -/
def scrapeJson (r : ScrapeResult) : Json :=
  .jobj [("mode", .jstr "scrape"), ("keyword", .jstr r.keyword),
         ("url", .jstr r.url), ("title", .jstr r.title),
         ("description", .jstr r.description),
         ("matches", .jarr (r.«matches».map .jstr)),
         ("match_count", .jnum r.match_count),
         ("images", .jarr (r.images.map imageJson)),
         ("image_count", .jnum r.image_count)]

/-- Serialization of one web hit. -/
def hitJson (h : WebHit) : Json :=
  .jobj [("title", h.title), ("url", h.url), ("snippet", h.snippet),
         ("display_url", h.display_url)]

/-- Serialization of the search-mode result dict (lines 274-281). -/
def searchJson (r : SearchResult) : Json :=
  .jobj [("mode", .jstr "search"), ("keyword", .jstr r.keyword),
         ("results", .jarr (r.results.map hitJson)),
         ("result_count", .jnum r.result_count),
         ("images", .jarr (r.images.map imageJson)),
         ("image_count", .jnum r.image_count)]

/-- Error message constants of the handler (lines 71-95). -/
def msgBadJson : String := "リクエストボディが不正な JSON です"

/-- Error message for the missing keyword (line 77). -/
def msgNoKeyword : String := "keyword は必須パラメータです"

/-- Error message for the timeout (line 87). -/
def msgTimeout : String := "リクエストがタイムアウトしました (15秒)"

/-- Error message prefix for an upstream HTTP error (line 89). -/
def msgHttpErr : String := "対象サイトの HTTP エラー: "

/-- Error message for too many redirects (line 91). -/
def msgRedirects : String := "リダイレクトが多すぎます"

/-- Error message prefix for a generic request failure (line 93). -/
def msgReqFail : String := "HTTP リクエスト失敗: "

/-- Error message prefix for the catch-all handler (line 95). -/
def msgInternal : String := "内部エラー: "

/-- lambda_handler (lines 56-101).  The value is an Except because the
field extraction on lines 73-74 runs outside the try block, so its
AttributeError escapes the handler. -/
def lambda_handler (env : Env) (ev : Event) : Except PyExn HttpResponse :=
  if ev.method = "OPTIONS" then .ok ⟨200, .empty⟩
  else
    match env.jsonLoads (bodyStr ev) with
    | none => .ok (_error 400 msgBadJson)
    | some body => do
      let keyword ← pyGetStrip body "keyword"
      let target_url ← pyGetStrip body "url"
      if keyword = "" then pure (_error 400 msgNoKeyword)
      else
        let run : Except ReqErr Json :=
          if target_url ≠ "" then (scrape_url env target_url keyword).map scrapeJson
          else (search_brave env keyword).map searchJson
        match run with
        | .ok j => pure ⟨200, .jsonDump j⟩
        | .error .timeout => pure (_error 504 msgTimeout)
        | .error (.httpError c) => pure (_error 502 (msgHttpErr ++ toString c))
        | .error .tooManyRedirects => pure (_error 502 msgRedirects)
        | .error (.requestExc m) => pure (_error 502 (msgReqFail ++ m))
        | .error (.otherExc m) => pure (_error 500 (msgInternal ++ m))

/-- A trivial environment: no bucket configured, every network call
fails. -/
def envTrivial : Env :=
  { IMAGE_BUCKET := ""
    AWS_REGION := "r"
    urljoin := fun _ s => s
    md5hex := fun s => s
    guessExtension := fun _ => none
    imgGet := fun _ => none
    s3PutOk := fun _ => false
    pageGet := fun _ => .error .timeout
    parseHtml := fun _ => ⟨.nil⟩
    decodeText := fun _ _ => ""
    jsonLoads := fun _ => none
    webGet := fun _ => .error .timeout
    imgSearchGet := fun _ => .error .timeout }

theorem matchesAux_sound (kwL : String) (ts : List Node) :
    ∀ seen : List String, ∀ m ∈ matchesAux kwL ts seen,
      (kwL.data <:+: (pyLower m).data)
        ∧ 15 < pyLen m ∧ pyLen m < 1500 ∧ m ∉ seen := by
  induction ts with
  | nil => intro seen m hm; simp [matchesAux] at hm
  | cons t ts ih =>
    intro seen m hm
    simp only [matchesAux] at hm
    by_cases h : (kwL.data <:+: (pyLower (getTextSep " " t)).data
        ∧ 15 < pyLen (getTextSep " " t) ∧ pyLen (getTextSep " " t) < 1500
        ∧ (getTextSep " " t) ∉ seen)
    · rw [if_pos h] at hm
      rcases List.mem_cons.mp hm with rfl | hmem
      · exact ⟨h.1, h.2.1, h.2.2.1, h.2.2.2⟩
      · have hres := ih _ m hmem
        exact ⟨hres.1, hres.2.1, hres.2.2.1,
          fun hc => hres.2.2.2 (List.mem_cons_of_mem _ hc)⟩
    · rw [if_neg h] at hm
      exact ih _ m hm

theorem matchesAux_nodup (kwL : String) (ts : List Node) :
    ∀ seen : List String, (matchesAux kwL ts seen).Nodup := by
  induction ts with
  | nil => intro seen; simp [matchesAux]
  | cons t ts ih =>
    intro seen
    simp only [matchesAux]
    split
    · refine List.nodup_cons.mpr ⟨?_, ih _⟩
      intro hmem
      exact (matchesAux_sound kwL ts _ _ hmem).2.2.2 (List.mem_cons_self _ _)
    · exact ih _

/-- C1: every entry of the matches list of a scrape result contains the
case-folded keyword as a substring of its case-folded text, has length
strictly between 15 and 1500, and the list holds no duplicates. -/
theorem c1_match_filters (env : Env) (soup : Soup) (url keyword : String) :
    (∀ m ∈ (scrapeExtract env soup url keyword).«matches»,
        ((pyLower keyword).data <:+: (pyLower m).data)
          ∧ 15 < pyLen m ∧ pyLen m < 1500)
    ∧ (scrapeExtract env soup url keyword).«matches».Nodup := by
  have hdef : (scrapeExtract env soup url keyword).«matches»
      = (matchesFromClean (cleanedSoup soup) keyword).take 20 := rfl
  constructor
  · intro m hm
    rw [hdef] at hm
    have hmem : m ∈ matchesFromClean (cleanedSoup soup) keyword :=
      (List.take_sublist 20 _).mem hm
    have hres := matchesAux_sound (pyLower keyword) _ _ m hmem
    exact ⟨hres.1, hres.2.1, hres.2.2.1⟩
  · rw [hdef]
    exact (matchesAux_nodup (pyLower keyword) _ []).sublist (List.take_sublist 20 _)

theorem c1_match_filters_witness :
    ((pyLower "Needle").data <:+: (pyLower "here is a needle in text").data)
      ∧ 15 < pyLen "here is a needle in text"
      ∧ pyLen "here is a needle in text" < 1500 :=
  (c1_match_filters envTrivial
      ⟨nlist [Node.elem "p" [] (nlist [Node.text "here is a needle in text"])]⟩ "u" "Needle").1
    "here is a needle in text" (by decide)

theorem hasNoise_removeChildren (noise : List String) (l : NodeList) :
    hasNoise noise (removeChildren noise l) = false := by
  induction l using removeChildren.induct noise with
  | case1 => rfl
  | case2 s cs ih => simp only [removeChildren, hasNoise, ih]
  | case3 t a kids cs hmem ih => simp only [removeChildren, if_pos hmem, ih]
  | case4 t a kids cs hmem ih1 ih2 =>
    simp only [removeChildren, if_neg hmem, hasNoise, ih1, ih2]
    simp [List.elem_eq_mem, hmem]

theorem removeChildren_idem (noise : List String) (l : NodeList) :
    removeChildren noise (removeChildren noise l) = removeChildren noise l := by
  induction l using removeChildren.induct noise with
  | case1 => rfl
  | case2 s cs ih => simp only [removeChildren, ih]
  | case3 t a kids cs hmem ih => simp only [removeChildren, if_pos hmem, ih]
  | case4 t a kids cs hmem ih1 ih2 =>
    simp only [removeChildren, if_neg hmem, ih1, ih2]

/-- C2: the extraction pipeline first removes every subtree rooted at a
noise tag and then computes title, description, matches and images from
the cleaned tree only: extraction factors through the cleaned soup, the
cleaned soup holds no noise-tagged element, and extraction of an already
cleaned soup gives the same result, so text inside removed subtrees
never contributes to the output. -/
theorem c2_noise_never_contributes (env : Env) (soup : Soup) (url keyword : String) :
    scrapeExtract env soup url keyword = extractCore env (cleanedSoup soup) url keyword
    ∧ hasNoise noiseTags (cleanedSoup soup).children = false
    ∧ scrapeExtract env (cleanedSoup soup) url keyword
        = scrapeExtract env soup url keyword := by
  refine ⟨rfl, hasNoise_removeChildren _ _, ?_⟩
  unfold scrapeExtract cleanedSoup
  simp only [removeChildren_idem]

/-- A document with 21 paragraphs that all match the keyword match. -/
def soup21 : Soup :=
  ⟨nlist ((["a0", "a1", "a2", "a3", "a4", "a5", "a6", "a7", "a8", "a9", "b0",
      "b1", "b2", "b3", "b4", "b5", "b6", "b7", "b8", "b9", "c0"]).map
    (fun sfx => Node.elem "p" [] (nlist [Node.text ("match text number " ++ sfx)])))⟩

/-- C7: the matches field of a scrape result is the first-20 prefix of
the full document-order match list while match_count is the length of
the untruncated list; on a concrete 21-match document the count exceeds
the returned list length. -/
theorem c7_truncation (env : Env) (soup : Soup) (url keyword : String) :
    ((scrapeExtract env soup url keyword).«matches»
        = (matchesFromClean (cleanedSoup soup) keyword).take 20
      ∧ (scrapeExtract env soup url keyword).match_count
        = (matchesFromClean (cleanedSoup soup) keyword).length)
    ∧ (scrapeExtract envTrivial soup21 "u" "match").match_count = 21
    ∧ (scrapeExtract envTrivial soup21 "u" "match").«matches».length = 20 :=
  ⟨⟨rfl, rfl⟩, by decide, by decide⟩

/-- C10: the decoding encoding is the detected apparent encoding when
it is present and non-empty, and the fixed fallback utf-8 when the
detector yields nothing usable; scrape_url decodes the page bytes with
exactly that encoding. -/
theorem c10_encoding_fallback :
    (∀ r : FetchResp,
        (r.apparentEncoding = none ∨ r.apparentEncoding = some "") →
          usedEncoding r = "utf-8")
    ∧ (∀ (r : FetchResp) (e : String),
        r.apparentEncoding = some e → e ≠ "" → usedEncoding r = e)
    ∧ (∀ (env : Env) (url keyword : String) (r : FetchResp),
        env.pageGet url = Except.ok r → ¬(400 ≤ r.status ∧ r.status < 600) →
        scrape_url env url keyword
          = Except.ok (scrapeExtract env
              (env.parseHtml (env.decodeText (usedEncoding r) r.raw)) url keyword)) := by
  refine ⟨?_, ?_, ?_⟩
  · intro r h
    rcases h with h | h <;> simp [usedEncoding, h]
  · intro r e he hne
    simp [usedEncoding, he, hne]
  · intro env url keyword r hget hst
    simp [scrape_url, hget, hst, bind, Except.bind, pure, Except.pure]

/-- An environment whose page fetch succeeds with no detected
encoding. -/
def envFetchOk : Env :=
  { envTrivial with pageGet := fun _ => .ok ⟨200, none, "raw"⟩ }

theorem c10_encoding_fallback_witness :
    usedEncoding ⟨200, none, "raw"⟩ = "utf-8"
    ∧ usedEncoding ⟨200, some "shift_jis", "raw"⟩ = "shift_jis"
    ∧ scrape_url envFetchOk "u" "k"
        = Except.ok (scrapeExtract envFetchOk
            (envFetchOk.parseHtml (envFetchOk.decodeText
              (usedEncoding ⟨200, none, "raw"⟩) "raw")) "u" "k") :=
  ⟨c10_encoding_fallback.1 ⟨200, none, "raw"⟩ (Or.inl rfl),
   c10_encoding_fallback.2.1 ⟨200, some "shift_jis", "raw"⟩ "shift_jis" rfl (by decide),
   c10_encoding_fallback.2.2 envFetchOk "u" "k" ⟨200, none, "raw"⟩ rfl (by decide)⟩

/-- C4: the stored URL of a successful upload is deterministic in the
source URL: two uploads of the same URL in the same environment yield
the same storageURL, and that URL embeds the key images/ followed by the
hash of the URL string and a content-type extension. -/
theorem c4_upload_idempotent (env : Env) (img_url : String) (s₁ s₂ : String)
    (h₁ : _upload_image_to_s3 env img_url = some s₁)
    (h₂ : _upload_image_to_s3 env img_url = some s₂) :
    s₁ = s₂
    ∧ ∃ ext, s₁ = s3UrlFor env ("images/" ++ env.md5hex img_url ++ ext) := by
  refine ⟨by rw [h₁] at h₂; exact Option.some.inj h₂, ?_⟩
  simp only [_upload_image_to_s3] at h₁
  split at h₁
  · simp at h₁
  · split at h₁
    · simp at h₁
    · split at h₁
      · simp at h₁
      · split at h₁ <;> split at h₁
        · exact ⟨_, (Option.some.inj h₁).symm⟩
        · simp at h₁
        · exact ⟨_, (Option.some.inj h₁).symm⟩
        · simp at h₁

/-- An environment whose image fetches and uploads succeed; the hash
oracle is the identity. -/
def env4 : Env :=
  { envTrivial with
    IMAGE_BUCKET := "b"
    imgGet := fun _ => some ⟨200, some "image/png", "bytes"⟩
    guessExtension := fun _ => some ".png"
    s3PutOk := fun _ => true
    md5hex := fun u => u }

theorem c4_upload_idempotent_witness :
    ("https://b.s3.r.amazonaws.com/images/pic.png" : String)
        = "https://b.s3.r.amazonaws.com/images/pic.png"
    ∧ ∃ ext, ("https://b.s3.r.amazonaws.com/images/pic.png" : String)
        = s3UrlFor env4 ("images/" ++ env4.md5hex "pic" ++ ext) :=
  c4_upload_idempotent env4 "pic" _ _ (by decide) (by decide)

/-- The status code the handler assigns to each fault class
(lines 86-95). -/
def errStatus : ReqErr → Nat
  | .timeout => 504
  | .httpError _ => 502
  | .tooManyRedirects => 502
  | .requestExc _ => 502
  | .otherExc _ => 500

/-- The error message the handler assigns to each fault class
(lines 86-95). -/
def errMsg : ReqErr → String
  | .timeout => msgTimeout
  | .httpError c => msgHttpErr ++ toString c
  | .tooManyRedirects => msgRedirects
  | .requestExc m => msgReqFail ++ m
  | .otherExc m => msgInternal ++ m

/-- C5: the error-response status is determined by the fault class —
400 for malformed JSON or a missing keyword, 504 for an upstream
timeout, 502 for an upstream HTTP error, too many redirects or a
generic request failure, 500 for any other internal error — and every
error body is the JSON object with the single error string field. -/
theorem c5_error_statuses (env : Env) (ev : Event) (hm : ev.method ≠ "OPTIONS") :
    ((env.jsonLoads (bodyStr ev) = none →
        lambda_handler env ev = .ok (_error 400 msgBadJson))
      ∧ (∀ body u, env.jsonLoads (bodyStr ev) = some body →
          pyGetStrip body "keyword" = .ok "" →
          pyGetStrip body "url" = .ok u →
          lambda_handler env ev = .ok (_error 400 msgNoKeyword))
      ∧ (∀ body kw u e, env.jsonLoads (bodyStr ev) = some body →
          pyGetStrip body "keyword" = .ok kw → kw ≠ "" →
          pyGetStrip body "url" = .ok u → u ≠ "" →
          scrape_url env u kw = .error e →
          lambda_handler env ev = .ok (_error (errStatus e) (errMsg e)))
      ∧ (∀ body kw e, env.jsonLoads (bodyStr ev) = some body →
          pyGetStrip body "keyword" = .ok kw → kw ≠ "" →
          pyGetStrip body "url" = .ok "" →
          search_brave env kw = .error e →
          lambda_handler env ev = .ok (_error (errStatus e) (errMsg e))))
    ∧ (errStatus .timeout = 504 ∧ errStatus .tooManyRedirects = 502
        ∧ (∀ c, errStatus (.httpError c) = 502)
        ∧ (∀ m, errStatus (.requestExc m) = 502)
        ∧ (∀ m, errStatus (.otherExc m) = 500))
    ∧ (∀ c m, (_error c m).body = Body.jsonDump (.jobj [("error", .jstr m)])) := by
  refine ⟨⟨?_, ?_, ?_, ?_⟩, ⟨rfl, rfl, fun _ => rfl, fun _ => rfl, fun _ => rfl⟩,
    fun _ _ => rfl⟩
  · intro hload
    simp [lambda_handler, if_neg hm, hload]
  · intro body u hload hk hu
    simp [lambda_handler, if_neg hm, hload, hk, hu, bind, Except.bind, pure,
      Except.pure]
  · intro body kw u e hload hk hkw hu hue hscrape
    cases e <;>
      simp [lambda_handler, if_neg hm, hload, hk, hu, hkw, hue, hscrape, bind,
        Except.bind, pure, Except.pure, Except.map, errStatus, errMsg]
  · intro body kw e hload hk hkw hu hsearch
    cases e <;>
      simp [lambda_handler, if_neg hm, hload, hk, hu, hkw, hsearch, bind,
        Except.bind, pure, Except.pure, Except.map, errStatus, errMsg]

/-- A POST event with an arbitrary body string. -/
def ev5 : Event := ⟨"POST", some "x"⟩

/-- Parsing yields an empty object (no keyword). -/
def env5b : Env := { envTrivial with jsonLoads := fun _ => some (.jobj []) }

/-- Parsing yields keyword and url; the page fetch times out. -/
def env5c : Env :=
  { envTrivial with
    jsonLoads := fun _ =>
      some (.jobj [("keyword", .jstr "k"), ("url", .jstr "http://x")]) }

/-- Parsing yields keyword and url; the page fetch returns 404. -/
def env5d : Env :=
  { env5c with pageGet := fun _ => .ok ⟨404, none, ""⟩ }

/-- Parsing yields a keyword only; the web search fails generically. -/
def env5e : Env :=
  { envTrivial with
    jsonLoads := fun _ => some (.jobj [("keyword", .jstr "k")])
    webGet := fun _ => .error (.requestExc "fail") }

theorem c5_error_statuses_witness :
    lambda_handler envTrivial ev5 = .ok (_error 400 msgBadJson)
    ∧ lambda_handler env5b ev5 = .ok (_error 400 msgNoKeyword)
    ∧ lambda_handler env5c ev5
        = .ok (_error (errStatus .timeout) (errMsg .timeout))
    ∧ lambda_handler env5d ev5
        = .ok (_error (errStatus (.httpError 404)) (errMsg (.httpError 404)))
    ∧ lambda_handler env5e ev5
        = .ok (_error (errStatus (.requestExc "fail")) (errMsg (.requestExc "fail"))) :=
  ⟨(c5_error_statuses envTrivial ev5 (by decide)).1.1 rfl,
   (c5_error_statuses env5b ev5 (by decide)).1.2.1 (.jobj []) "" rfl rfl rfl,
   (c5_error_statuses env5c ev5 (by decide)).1.2.2.1
     (.jobj [("keyword", .jstr "k"), ("url", .jstr "http://x")])
     "k" "http://x" .timeout rfl rfl (by decide) rfl (by decide) rfl,
   (c5_error_statuses env5d ev5 (by decide)).1.2.2.1
     (.jobj [("keyword", .jstr "k"), ("url", .jstr "http://x")])
     "k" "http://x" (.httpError 404) rfl rfl (by decide) rfl (by decide) rfl,
   (c5_error_statuses env5e ev5 (by decide)).1.2.2.2
     (.jobj [("keyword", .jstr "k")]) "k" (.requestExc "fail")
     rfl rfl (by decide) rfl rfl⟩

/-- An environment whose body parses to an object carrying a numeric
keyword field. -/
def env6 : Env :=
  { envTrivial with jsonLoads := fun _ => some (.jobj [("keyword", .jnum 5)]) }

/-- C6 counterexample: on a body whose keyword field is the number 5,
the handler raises an uncaught AttributeError (the field extraction on
lines 73-74 runs outside the try block), so the caller does not receive
a JSON response. -/
theorem c6_counterexample :
    lambda_handler env6 ⟨"POST", some "x"⟩ = Except.error PyExn.attributeError := rfl

/-- Every value stored at key k is a string. -/
def strFieldOk (kvs : List (String × Json)) (k : String) : Prop :=
  ∀ v, kvs.lookup k = some v → ∃ s, v = Json.jstr s

theorem pyGetStrip_ok (kvs : List (String × Json)) (k : String)
    (h : strFieldOk kvs k) : ∃ s, pyGetStrip (.jobj kvs) k = .ok s := by
  cases hl : kvs.lookup k with
  | none => exact ⟨"", by simp [pyGetStrip, hl]⟩
  | some v =>
    obtain ⟨s, rfl⟩ := h v hl
    exact ⟨pyStrip s, by simp [pyGetStrip, hl]⟩

/-- C6 amended: for every event whose body parses to a JSON object
whose keyword and url fields, when present, are strings, the handler
returns a response value (it never raises), and outside the CORS
preflight the body of that response is a JSON dump. -/
theorem c6_amended (env : Env) (ev : Event)
    (hgood : ∀ j, env.jsonLoads (bodyStr ev) = some j →
        ∃ kvs, j = Json.jobj kvs ∧ strFieldOk kvs "keyword" ∧ strFieldOk kvs "url") :
    ∃ resp, lambda_handler env ev = .ok resp
      ∧ (ev.method ≠ "OPTIONS" → ∃ jb, resp.body = Body.jsonDump jb) := by
  by_cases hm : ev.method = "OPTIONS"
  · exact ⟨⟨200, .empty⟩, by simp [lambda_handler, hm], fun h => absurd hm h⟩
  · cases hload : env.jsonLoads (bodyStr ev) with
    | none =>
      exact ⟨_error 400 msgBadJson, by simp [lambda_handler, hm, hload],
        fun _ => ⟨_, rfl⟩⟩
    | some j =>
      obtain ⟨kvs, rfl, hk, hu⟩ := hgood j hload
      obtain ⟨kw, hkw⟩ := pyGetStrip_ok kvs "keyword" hk
      obtain ⟨u, huu⟩ := pyGetStrip_ok kvs "url" hu
      by_cases hke : kw = ""
      · refine ⟨_error 400 msgNoKeyword, ?_, fun _ => ⟨_, rfl⟩⟩
        simp [lambda_handler, hm, hload, hkw, huu, hke, bind, Except.bind,
          pure, Except.pure]
      · cases hr : (if u ≠ "" then (scrape_url env u kw).map scrapeJson
            else (search_brave env kw).map searchJson) with
        | ok jv =>
          refine ⟨⟨200, .jsonDump jv⟩, ?_, fun _ => ⟨_, rfl⟩⟩
          simp [lambda_handler, hm, hload, hkw, huu, hke, hr, bind, Except.bind,
            pure, Except.pure]
        | error e =>
          refine ⟨_error (errStatus e) (errMsg e), ?_, fun _ => ⟨_, rfl⟩⟩
          cases e <;>
            simp [lambda_handler, hm, hload, hkw, huu, hke, hr, bind,
              Except.bind, pure, Except.pure, errStatus, errMsg]

theorem c6_amended_witness :
    ∃ resp, lambda_handler env5e ev5 = .ok resp
      ∧ (ev5.method ≠ "OPTIONS" → ∃ jb, resp.body = Body.jsonDump jb) :=
  c6_amended env5e ev5 (fun j h => by
    cases h
    exact ⟨[("keyword", .jstr "k")], rfl,
      fun v hv => ⟨"k", by simpa using hv.symm⟩,
      fun v hv => by simp [List.lookup] at hv⟩)

/-- The number of candidates of the _collect_images loop that pass all
filters and whose upload succeeds (the eligible images of the page). -/
def eligibleCount (env : Env) (base_url : String) : List Node → Nat
  | [] => 0
  | img :: rest =>
    let src := pyStrip ((nodeAttr img "src").getD "")
    if src = "" ∨ pyStartsWith src "data:" = true then
      eligibleCount env base_url rest
    else
      let full_url := env.urljoin base_url src
      if ¬(pyStartsWith full_url "http://" = true ∨ pyStartsWith full_url "https://" = true) then
        eligibleCount env base_url rest
      else
        match _upload_image_to_s3 env full_url with
        | some _ => eligibleCount env base_url rest + 1
        | none => eligibleCount env base_url rest

theorem collectImagesGo_length (env : Env) (base_url : String) :
    ∀ (imgs : List Node) (acc : List ImageEntry), acc.length ≤ MAX_IMAGES →
      ((collectImagesGo env base_url imgs acc).1).length
        = min MAX_IMAGES (acc.length + eligibleCount env base_url imgs) := by
  intro imgs
  induction imgs with
  | nil =>
    intro acc hacc
    simp only [collectImagesGo, eligibleCount]
    omega
  | cons img rest ih =>
    intro acc hacc
    simp only [collectImagesGo, eligibleCount]
    by_cases hbreak : acc.length ≥ MAX_IMAGES
    · rw [if_pos hbreak]
      simp only [List.length]
      omega
    · rw [if_neg hbreak]
      by_cases h1 : pyStrip ((nodeAttr img "src").getD "") = ""
          ∨ pyStartsWith (pyStrip ((nodeAttr img "src").getD "")) "data:" = true
      · rw [if_pos h1, if_pos h1]
        exact ih acc hacc
      · rw [if_neg h1, if_neg h1]
        by_cases h2 : ¬(pyStartsWith (env.urljoin base_url
              (pyStrip ((nodeAttr img "src").getD ""))) "http://" = true
            ∨ pyStartsWith (env.urljoin base_url
              (pyStrip ((nodeAttr img "src").getD ""))) "https://" = true)
        · rw [if_pos h2, if_pos h2]
          exact ih acc hacc
        · rw [if_neg h2, if_neg h2]
          cases hu : _upload_image_to_s3 env
              (env.urljoin base_url (pyStrip ((nodeAttr img "src").getD ""))) with
          | none => exact ih acc hacc
          | some s3 =>
            have hlen : (acc ++ [(⟨env.urljoin base_url
                (pyStrip ((nodeAttr img "src").getD "")), s3,
                (nodeAttr img "alt").getD ""⟩ : ImageEntry)]).length
                = acc.length + 1 := by simp
            have := ih (acc ++ [⟨env.urljoin base_url
                (pyStrip ((nodeAttr img "src").getD "")), s3,
                (nodeAttr img "alt").getD ""⟩]) (by omega)
            rw [hlen] at this
            simp only [this]
            omega

theorem collectImages_length (env : Env) (soup : Soup) (base_url : String)
    (hb : env.IMAGE_BUCKET ≠ "") :
    (_collect_images env soup base_url).length
      = min MAX_IMAGES (eligibleCount env base_url (imgTagsWithSrc soup)) := by
  unfold _collect_images collectImagesRun
  rw [if_neg hb]
  have h := collectImagesGo_length env base_url (imgTagsWithSrc soup) []
    (by simp [MAX_IMAGES])
  simpa using h

/-- The number of items of the search-mode image loop with a non-empty
source whose upload succeeds. -/
def searchEligibleCount (env : Env) : List Json → Nat
  | [] => 0
  | item :: rest =>
    let src := jStrD (jGetD item "properties" (.jobj [])) "url" ""
    if src = "" then searchEligibleCount env rest
    else
      match _upload_image_to_s3 env src with
      | some _ => searchEligibleCount env rest + 1
      | none => searchEligibleCount env rest

theorem searchImagesGo_length (env : Env) :
    ∀ items : List Json,
      (searchImagesGo env items).length = searchEligibleCount env items := by
  intro items
  induction items with
  | nil => rfl
  | cons item rest ih =>
    simp only [searchImagesGo, searchEligibleCount]
    by_cases h1 : jStrD (jGetD item "properties" (.jobj [])) "url" "" = ""
    · rw [if_pos h1, if_pos h1]; exact ih
    · rw [if_neg h1, if_neg h1]
      cases hu : _upload_image_to_s3 env
          (jStrD (jGetD item "properties" (.jobj [])) "url" "") with
      | none => exact ih
      | some s3 => simp only [List.length, ih]

theorem searchEligibleCount_le (env : Env) :
    ∀ items : List Json, searchEligibleCount env items ≤ items.length := by
  intro items
  induction items with
  | nil => exact Nat.le_refl 0
  | cons item rest ih =>
    simp only [searchEligibleCount]
    by_cases h1 : jStrD (jGetD item "properties" (.jobj [])) "url" "" = ""
    · rw [if_pos h1]; simp; omega
    · rw [if_neg h1]
      cases _upload_image_to_s3 env
          (jStrD (jGetD item "properties" (.jobj [])) "url" "") with
      | none => simp; omega
      | some s3 => simp; omega

theorem search_brave_images (env : Env) (kw : String) (r : SearchResult)
    (hr : search_brave env kw = Except.ok r) :
    r.image_count = r.images.length
    ∧ (r.images = []
        ∨ ∃ items : List Json, r.images = searchImagesGo env (items.take MAX_IMAGES)) := by
  unfold search_brave at hr
  cases hw : env.webGet kw with
  | error e => rw [hw] at hr; simp [bind, Except.bind] at hr
  | ok w =>
    rw [hw] at hr
    simp only [bind, Except.bind] at hr
    split at hr
    · simp [throw, throwThe, MonadExceptOf.throw] at hr
    · by_cases hb : env.IMAGE_BUCKET = ""
      · rw [if_pos hb] at hr
        simp only [pure, Except.pure] at hr
        cases hr
        exact ⟨rfl, Or.inl rfl⟩
      · rw [if_neg hb] at hr
        cases hi : env.imgSearchGet kw with
        | error e => rw [hi] at hr; simp [bind, Except.bind] at hr
        | ok iresp =>
          rw [hi] at hr
          simp only [bind, Except.bind] at hr
          split at hr
          · simp only [pure, Except.pure] at hr
            cases hr
            exact ⟨rfl, Or.inr ⟨iresp.results, rfl⟩⟩
          · simp only [pure, Except.pure] at hr
            cases hr
            exact ⟨rfl, Or.inl rfl⟩

/-- C3 amended: in both modes the final images list has at most
MAX_IMAGES entries and image_count equals its length; in scrape mode
the list length is exactly the minimum of MAX_IMAGES and the number of
eligible candidates, so a failed upload does not count against the cap
there; in search mode the candidates are truncated to MAX_IMAGES before
the uploads, so a failed upload does reduce the final count. -/
theorem c3_image_cap (env : Env) (soup : Soup) (base_url url keyword kw : String) :
    (env.IMAGE_BUCKET ≠ "" →
      (_collect_images env soup base_url).length
        = min MAX_IMAGES (eligibleCount env base_url (imgTagsWithSrc soup)))
    ∧ (_collect_images env soup base_url).length ≤ MAX_IMAGES
    ∧ (scrapeExtract env soup url keyword).image_count
        = (scrapeExtract env soup url keyword).images.length
    ∧ (∀ r, search_brave env kw = Except.ok r →
        r.image_count = r.images.length ∧ r.images.length ≤ MAX_IMAGES) := by
  refine ⟨collectImages_length env soup base_url, ?_, rfl, ?_⟩
  · by_cases hb : env.IMAGE_BUCKET = ""
    · simp [_collect_images, collectImagesRun, hb]
    · rw [collectImages_length env soup base_url hb]
      exact Nat.min_le_left _ _
  · intro r hr
    obtain ⟨hc, himg⟩ := search_brave_images env kw r hr
    refine ⟨hc, ?_⟩
    rcases himg with h | ⟨items, h⟩
    · simp [h]
    · rw [h, searchImagesGo_length]
      calc searchEligibleCount env (items.take MAX_IMAGES)
          ≤ (items.take MAX_IMAGES).length := searchEligibleCount_le env _
        _ ≤ MAX_IMAGES := by simp

/-- A search image item with the given source URL. -/
def cexItem (u : String) : Json :=
  .jobj [("properties", .jobj [("url", .jstr u)]), ("title", .jstr "t")]

/-- Twelve image-search result items. -/
def cex3Items : List Json :=
  [cexItem "u1", cexItem "u2", cexItem "u3", cexItem "u4", cexItem "u5",
   cexItem "u6", cexItem "u7", cexItem "u8", cexItem "u9", cexItem "u10",
   cexItem "u11", cexItem "u12"]

/-- A search environment where the upload of u1 fails and every other
upload succeeds. -/
def env3 : Env :=
  { envTrivial with
    IMAGE_BUCKET := "b"
    webGet := fun _ => .ok ⟨200, .jobj []⟩
    imgSearchGet := fun _ => .ok ⟨200, cex3Items⟩
    imgGet := fun u => if u = "u1" then none
      else some ⟨200, some "image/png", "x"⟩
    guessExtension := fun _ => some ".png"
    s3PutOk := fun _ => true
    md5hex := fun u => u }

/-- Projection used to state closed facts about a search run. -/
def imagesLenOf : Except ReqErr SearchResult → Option Nat
  | .ok r => some r.images.length
  | .error _ => none

/-- Projection of the reported image_count of a search run. -/
def imageCountOf : Except ReqErr SearchResult → Option Nat
  | .ok r => some r.image_count
  | .error _ => none

/-- C3 counterexample: in search mode, with 11 eligible images
available (u2 through u12) — more than MAX_IMAGES — the final images
list has 9 entries, not MAX_IMAGES, because the candidates are cut to
the first 10 before upload and the failed upload of u1 counts against
the cap. -/
theorem c3_image_cap_counterexample :
    searchEligibleCount env3 cex3Items = 11
    ∧ MAX_IMAGES = 10
    ∧ imagesLenOf (search_brave env3 "k") = some 9 :=
  ⟨by decide, rfl, by decide⟩

theorem c3_image_cap_witness :
    (_collect_images env3 ⟨.nil⟩ "b").length
      = min MAX_IMAGES (eligibleCount env3 "b" (imgTagsWithSrc ⟨.nil⟩))
    ∧ imageCountOf (search_brave env3 "k") = imagesLenOf (search_brave env3 "k") := by
  refine ⟨(c3_image_cap env3 ⟨.nil⟩ "b" "u" "kw" "k").1 (by decide), ?_⟩
  cases hr : search_brave env3 "k" with
  | error e => rfl
  | ok r =>
    have h := ((c3_image_cap env3 ⟨.nil⟩ "b" "u" "kw" "k").2.2.2 r hr).1
    simp [imageCountOf, imagesLenOf, h]

/-- The property of a URL for which _collect_images attempts an upload:
it comes from an img element whose stripped src is non-empty and not a
data URI, it is the resolution of that src against the base URL, and it
uses the http or https scheme. -/
def attemptOk (env : Env) (base_url : String) (img : Node) (u : String) : Prop :=
  pyStrip ((nodeAttr img "src").getD "") ≠ ""
  ∧ ¬ pyStartsWith (pyStrip ((nodeAttr img "src").getD "")) "data:" = true
  ∧ u = env.urljoin base_url (pyStrip ((nodeAttr img "src").getD ""))
  ∧ (pyStartsWith u "http://" = true ∨ pyStartsWith u "https://" = true)

theorem collectImagesGo_attempts (env : Env) (base_url : String) :
    ∀ (imgs : List Node) (acc : List ImageEntry),
      (∀ u ∈ (collectImagesGo env base_url imgs acc).2,
        ∃ img ∈ imgs, attemptOk env base_url img u)
      ∧ (∀ e ∈ (collectImagesGo env base_url imgs acc).1,
          e ∈ acc ∨ e.original_url ∈ (collectImagesGo env base_url imgs acc).2) := by
  intro imgs
  induction imgs with
  | nil =>
    intro acc
    refine ⟨fun u hu => absurd hu (by simp [collectImagesGo]), fun e he => ?_⟩
    simp only [collectImagesGo] at he
    exact Or.inl he
  | cons img rest ih =>
    intro acc
    simp only [collectImagesGo]
    by_cases hbreak : acc.length ≥ MAX_IMAGES
    · rw [if_pos hbreak]
      exact ⟨fun u hu => absurd hu (by simp), fun e he => Or.inl he⟩
    · rw [if_neg hbreak]
      by_cases h1 : pyStrip ((nodeAttr img "src").getD "") = ""
          ∨ pyStartsWith (pyStrip ((nodeAttr img "src").getD "")) "data:" = true
      · rw [if_pos h1]
        refine ⟨fun u hu => ?_, (ih acc).2⟩
        obtain ⟨i, hi, hp⟩ := (ih acc).1 u hu
        exact ⟨i, List.mem_cons_of_mem _ hi, hp⟩
      · rw [if_neg h1]
        by_cases h2 : ¬(pyStartsWith (env.urljoin base_url
              (pyStrip ((nodeAttr img "src").getD ""))) "http://" = true
            ∨ pyStartsWith (env.urljoin base_url
              (pyStrip ((nodeAttr img "src").getD ""))) "https://" = true)
        · rw [if_pos h2]
          refine ⟨fun u hu => ?_, (ih acc).2⟩
          obtain ⟨i, hi, hp⟩ := (ih acc).1 u hu
          exact ⟨i, List.mem_cons_of_mem _ hi, hp⟩
        · rw [if_neg h2]
          push_neg at h1
          rw [not_not] at h2
          cases hu : _upload_image_to_s3 env
              (env.urljoin base_url (pyStrip ((nodeAttr img "src").getD ""))) with
          | some s3 =>
            constructor
            · intro u humem
              rcases List.mem_cons.mp humem with rfl | htail
              · exact ⟨img, List.mem_cons_self _ _, h1.1, h1.2, rfl, h2⟩
              · obtain ⟨i, hi, hp⟩ := (ih _).1 u htail
                exact ⟨i, List.mem_cons_of_mem _ hi, hp⟩
            · intro e he
              rcases (ih _).2 e he with hacc | htr
              · rcases List.mem_append.mp hacc with h | h
                · exact Or.inl h
                · rw [List.mem_singleton.mp h]
                  exact Or.inr (List.mem_cons_self _ _)
              · exact Or.inr (List.mem_cons_of_mem _ htr)
          | none =>
            constructor
            · intro u humem
              rcases List.mem_cons.mp humem with rfl | htail
              · exact ⟨img, List.mem_cons_self _ _, h1.1, h1.2, rfl, h2⟩
              · obtain ⟨i, hi, hp⟩ := (ih acc).1 u htail
                exact ⟨i, List.mem_cons_of_mem _ hi, hp⟩
            · intro e he
              rcases (ih acc).2 e he with hacc | htr
              · exact Or.inl hacc
              · exact Or.inr (List.mem_cons_of_mem _ htr)

/-- C8: image harvesting attempts uploads only for img elements with a
src attribute whose stripped value is non-empty and not a data URI,
resolved against the base URL, and only when the resolved URL uses the
http or https scheme; every harvested entry comes from such an
attempt. -/
theorem c8_image_candidates (env : Env) (soup : Soup) (base_url : String) :
    (∀ u ∈ collectAttempts env soup base_url,
      ∃ img ∈ imgTagsWithSrc soup, attemptOk env base_url img u)
    ∧ (∀ e ∈ _collect_images env soup base_url,
        e.original_url ∈ collectAttempts env soup base_url) := by
  unfold collectAttempts _collect_images collectImagesRun
  by_cases hb : env.IMAGE_BUCKET = ""
  · rw [if_pos hb]
    exact ⟨fun u hu => absurd hu (by simp), fun e he => absurd he (by simp)⟩
  · rw [if_neg hb]
    refine ⟨(collectImagesGo_attempts env base_url (imgTagsWithSrc soup) []).1, ?_⟩
    intro e he
    rcases (collectImagesGo_attempts env base_url (imgTagsWithSrc soup) []).2 e he with h | h
    · exact absurd h (by simp)
    · exact h

/-- An environment with working uploads and a concatenating URL
resolver. -/
def env8 : Env := { env4 with urljoin := fun b s => b ++ s }

/-- A page with one regular image and one data-URI image. -/
def soup8 : Soup :=
  ⟨nlist [Node.elem "img" [("src", " a.png ")] .nil,
          Node.elem "img" [("src", "data:image/png;base64,xyz")] .nil]⟩

theorem c8_image_candidates_witness :
    ∃ img ∈ imgTagsWithSrc soup8, attemptOk env8 "http://s/" img "http://s/a.png" :=
  (c8_image_candidates env8 soup8 "http://s/").1 "http://s/a.png" (by decide)

/-- C9: image handling is a soft dependency — with no bucket configured
image harvesting is skipped (no upload attempt, empty list) in scrape
mode, and search mode returns its web results with an empty images
list; with a bucket configured, a non-2xx image-search response leaves
the images list silently empty while the web results are still
returned; in each of these search cases the handler still answers with
status 200 carrying the search body. -/
theorem c9_soft_image_dependency :
    (∀ (env : Env) (soup : Soup) (base_url : String), env.IMAGE_BUCKET = "" →
      _collect_images env soup base_url = [] ∧ collectAttempts env soup base_url = [])
    ∧ (∀ (env : Env) (kw : String) (w : WebResp), env.IMAGE_BUCKET = "" →
        env.webGet kw = .ok w → ¬(400 ≤ w.status ∧ w.status < 600) →
        search_brave env kw = .ok ⟨kw, webHits w, (webHits w).length, [], 0⟩)
    ∧ (∀ (env : Env) (kw : String) (w : WebResp) (iresp : ImgSearchResp),
        env.IMAGE_BUCKET ≠ "" →
        env.webGet kw = .ok w → ¬(400 ≤ w.status ∧ w.status < 600) →
        env.imgSearchGet kw = .ok iresp → ¬(iresp.status < 400) →
        search_brave env kw = .ok ⟨kw, webHits w, (webHits w).length, [], 0⟩)
    ∧ (∀ (env : Env) (ev : Event) (body : Json) (kw : String) (r : SearchResult),
        ev.method ≠ "OPTIONS" →
        env.jsonLoads (bodyStr ev) = some body →
        pyGetStrip body "keyword" = .ok kw → kw ≠ "" →
        pyGetStrip body "url" = .ok "" →
        search_brave env kw = .ok r →
        lambda_handler env ev = .ok ⟨200, .jsonDump (searchJson r)⟩) := by
  refine ⟨?_, ?_, ?_, ?_⟩
  · intro env soup base_url hb
    simp [_collect_images, collectAttempts, collectImagesRun, hb]
  · intro env kw w hb hw hst
    simp [search_brave, hw, hst, hb, bind, Except.bind, pure, Except.pure]
  · intro env kw w iresp hb hw hst hi hiok
    simp [search_brave, hw, hst, hb, hi, hiok, bind, Except.bind, pure, Except.pure]
  · intro env ev body kw r hm hload hk hu hkw hr
    simp [lambda_handler, hm, hload, hk, hu, hkw, hr, bind, Except.bind, pure,
      Except.pure, Except.map]

/-- A search environment with a configured bucket whose image search
returns a server error. -/
def env9 : Env :=
  { envTrivial with
    IMAGE_BUCKET := "b"
    webGet := fun _ => .ok ⟨200, .jobj []⟩
    imgSearchGet := fun _ => .ok ⟨500, []⟩
    jsonLoads := fun _ => some (.jobj [("keyword", .jstr "k")]) }

/-- A bucketless search environment whose web search succeeds. -/
def env9b : Env :=
  { envTrivial with webGet := fun _ => .ok ⟨200, .jobj []⟩ }

theorem c9_soft_image_dependency_witness :
    (_collect_images envTrivial ⟨.nil⟩ "b" = []
      ∧ collectAttempts envTrivial ⟨.nil⟩ "b" = [])
    ∧ search_brave env9b "k"
        = .ok ⟨"k", webHits ⟨200, .jobj []⟩, (webHits ⟨200, .jobj []⟩).length, [], 0⟩
    ∧ search_brave env9 "k"
        = .ok ⟨"k", webHits ⟨200, .jobj []⟩, (webHits ⟨200, .jobj []⟩).length, [], 0⟩
    ∧ lambda_handler env9 ev5
        = .ok ⟨200, .jsonDump (searchJson ⟨"k", [], 0, [], 0⟩)⟩ :=
  ⟨c9_soft_image_dependency.1 envTrivial ⟨.nil⟩ "b" rfl,
   c9_soft_image_dependency.2.1 env9b "k" ⟨200, .jobj []⟩ rfl rfl (by decide),
   c9_soft_image_dependency.2.2.1 env9 "k" ⟨200, .jobj []⟩ ⟨500, []⟩ (by decide)
     rfl (by decide) rfl (by decide),
   c9_soft_image_dependency.2.2.2 env9 ev5 (.jobj [("keyword", .jstr "k")]) "k"
     ⟨"k", [], 0, [], 0⟩ (by decide) rfl rfl (by decide) rfl rfl⟩

end WebScraper
